import Mathlib

/-!
Shallow embedding of the edcube_mvp resource-curation pipeline.

The repository contains two generations of the video pipeline:
  * `src/populator/…`           (the "legacy" CLI variant), and
  * `src/backend/populator/…`   (the backend variant),
plus the hands-on worksheet/activity pipeline in
`src/backend/hands_on/resource_filter.py` (identical logic in
`src/hands_on/resource_filter.py`).

External collaborators (the LLM calls, the YouTube / Google search APIs and
the floating-point `math.log10`) are modelled as explicit oracle parameters:
an `Option`-returning oracle models a call that can fail (the `try/except`
blocks substitute the documented defaults).  Numeric scores computed with
Python floats are embedded over `ℚ`; wall-clock time is an explicit integer
day count.  Python dict lookups with defaults (`d.get(k, v)`) are embedded
as `Option` fields read with `getD`.
-/

namespace EdCube

/-- Does `needle` occur at the head of `hay`?  Helper for Python's `in`
substring test. -/
def leadsWith : List Char → List Char → Bool
  | [], _ => true
  | _ :: _, [] => false
  | a :: as, b :: bs => a = b && leadsWith as bs

/-- Does `needle` occur anywhere inside `hay`?  Helper for Python's `in`
substring test. -/
def occursIn (needle : List Char) : List Char → Bool
  | [] => needle.isEmpty
  | c :: rest => leadsWith needle (c :: rest) || occursIn needle rest

/-- Python's `str.lower`, as a character list (character-wise lower-casing;
`String.toLower` itself does not reduce in the kernel). -/
def lowerChars (s : String) : List Char :=
  s.toList.map Char.toLower

/-- Python's `needle in hay` test of a string against an already lower-cased
character list. -/
def strContains (hay : List Char) (needle : String) : Bool :=
  occursIn needle.toList hay

/-- Python's `int(str)` on a digit string: `some n` for a non-empty
all-digit string, `none` otherwise (mirrors the `str.isdigit()` guards and
the `try/except` around `int(...)`). -/
def digitsToNat? (cs : List Char) : Option Nat :=
  if cs ≠ [] ∧ cs.all Char.isDigit then
    some (cs.foldl (fun n c => 10 * n + (c.toNat - '0'.toNat)) 0)
  else none

/-- Python's `str.capitalize`: first character upper-cased, the rest
lower-cased. -/
def pyCapitalize (s : String) : String :=
  match s.toList with
  | [] => ""
  | c :: rest => String.mk (c.toUpper :: rest.map Char.toLower)

/-!
`channel_database.py` — identical tables and logic in
`src/populator/channel_database.py` and
`src/backend/utils/channel_database.py`.
Python dicts iterate in insertion order, so the tables are lists here.
-/

/-- Tier 1: channels explicitly designed for elementary students, with their
grade ranges (`TIER_1_CHANNELS`). -/
def TIER_1_CHANNELS : List (String × Int × Int) :=
  [("crash course kids", 3, 6),
   ("national geographic kids", 2, 5),
   ("pbs learningmedia", 1, 8),
   ("free school", 3, 7),
   ("homeschool pop", 1, 5),
   ("brainpop", 3, 8),
   ("flocabulary", 3, 8),
   ("history for kids", 2, 6),
   ("simple history", 4, 8),
   ("peekaboo kidz", 1, 4),
   ("happy learning english", 2, 6),
   ("smile and learn", 1, 5)]

/-- Tier 2: general educational channels (`TIER_2_CHANNELS`). -/
def TIER_2_CHANNELS : List (String × Int × Int) :=
  [("national geographic", 3, 12),
   ("history channel", 5, 12),
   ("biography", 5, 12),
   ("smithsonian", 4, 12),
   ("discovery", 4, 12),
   ("pbs", 3, 12),
   ("ted-ed", 6, 12),
   ("scishow", 6, 12)]

/-- Blacklist: channels explicitly too advanced for elementary
(`BLACKLIST_CHANNELS`; a Python `set`, but only membership of a match
matters, never order). -/
def BLACKLIST_CHANNELS : List String :=
  ["crashcourse", "khan academy", "mit opencourseware", "stanford",
   "yale courses", "coursera", "udacity", "ap"]

/-- `get_channel_tier`: classify a channel name by case-insensitive substring
match, blacklist first, then tier 1, then tier 2; unknown is 0. -/
def get_channel_tier (channel_name : String) : Int :=
  let channel_lower := lowerChars channel_name
  if BLACKLIST_CHANNELS.any (fun b => strContains channel_lower b) then -1
  else if TIER_1_CHANNELS.any (fun p => strContains channel_lower p.1) then 1
  else if TIER_2_CHANNELS.any (fun p => strContains channel_lower p.1) then 2
  else 0

/-- `_parse_grade_level` / the inline grade parsing in
`calculate_channel_demographic_score`: `"3-4"` takes the part before the
dash, a leading `k`/`K` means kindergarten, otherwise parse digits, and any
parse failure defaults to grade 5. -/
def parseGradeLevel (s : String) : Int :=
  if s.toList.contains '-' then
    match digitsToNat? (s.toList.takeWhile (· ≠ '-')) with
    | some n => (n : Int)
    | none => 5
  else if (lowerChars s).headD ' ' = 'k' then 0
  else match digitsToNat? s.toList with
    | some n => (n : Int)
    | none => 5

/-- `calculate_channel_demographic_score`: 0 for blacklisted channels, 4/3/2
for tier-1 channels depending on the grade-range match, 2/1 for tier-2
channels, and a neutral 0.5 for unknown channels. -/
def calculate_channel_demographic_score (channel_name : String)
    (grade_level : String) : ℚ :=
  let grade := parseGradeLevel grade_level
  let tier := get_channel_tier channel_name
  if tier = -1 then 0
  else
    let channel_lower := lowerChars channel_name
    match (if tier = 1 then
             TIER_1_CHANNELS.find? (fun p => strContains channel_lower p.1)
           else none) with
    | some (_, min_grade, max_grade) =>
        if min_grade ≤ grade ∧ grade ≤ max_grade then 4
        else if (grade - min_grade).natAbs ≤ 2 ∨ (grade - max_grade).natAbs ≤ 2 then 3
        else 2
    | none =>
      match (if tier = 2 then
               TIER_2_CHANNELS.find? (fun p => strContains channel_lower p.1)
             else none) with
      | some (_, min_grade, max_grade) =>
          if min_grade ≤ grade ∧ grade ≤ max_grade then 2 else 1
      | none => (1 : ℚ)/2

example : get_channel_tier "Crash Course Kids" = 1 := by decide
example : get_channel_tier "CrashCourse" = -1 := by decide
example : get_channel_tier "Random Channel" = 0 := by decide
example : get_channel_tier "National Geographic" = -1 := by decide

/-!
Stable sorting.  Python's `list.sort(key=…, reverse=True)` is a stable
descending sort; a stable sort's output is uniquely determined by the key
and the input order, so a stable insertion sort is an exact model.
-/

/-- Insert `x` into a list already sorted by descending `key`, after every
element whose key is `≥ key x` that originally preceded it (stability). -/
def insertDesc (key : α → ℚ) (x : α) : List α → List α
  | [] => [x]
  | y :: ys => if key y ≤ key x then x :: y :: ys else y :: insertDesc key x ys

/-- Stable sort by descending key, the model of
`list.sort(key=…, reverse=True)`. -/
def sortByDesc (key : α → ℚ) : List α → List α
  | [] => []
  | x :: xs => insertDesc key x (sortByDesc key xs)

/-!
Data model for the video pipeline.  A `Video` is the candidate dict built by
`get_video_details` and enriched in place by the generators; dict keys that
may be absent or are read with `dict.get` defaults are `Option` fields.
-/

/-- The three states of a video's `published_at` string: missing/empty
(falsy, recency skipped), present but unparseable by
`datetime.fromisoformat` (the `except` branch scores a fixed 10), or parsed
to a publication day number. -/
inductive PubDate where
  | empty : PubDate
  | unparseable : PubDate
  | parsed : Int → PubDate
deriving DecidableEq, Repr

/-- The JSON object requested from the LLM by `calculate_content_coverage`
(only `coverage_percentage` is ever read downstream; the textual fields of
the JSON are not modelled). -/
structure CoverageAnalysis where
  coverage_percentage : Nat
deriving DecidableEq, Repr

/-- The JSON object requested from the LLM by `detect_redundancy`.
`is_redundant` is NOT among the requested keys and `detect_redundancy`
never produces it; it is kept as an optional field because
`src/backend/populator/video_filter.py` reads
`redundancy.get('is_redundant', False)`. -/
structure RedundancyAnalysis where
  redundancy_percentage : Nat
  unique_new_content : List String
  overlapping_topics : List String
  is_redundant : Option Bool := none
deriving DecidableEq, Repr

/-- The JSON object requested from the LLM by `analyze_video_content`. -/
structure ClassifyResult where
  topics_covered : List String
  main_focus : String
  content_depth : String
deriving DecidableEq, Repr

/-- One candidate video dict.  `video_id = ""` models a missing/falsy id;
`relevance_score` is set only by the legacy filter and `ranking_score` only
by the backend filter, so both default to absent/0. -/
structure Video where
  video_id : String := ""
  title : String := ""
  channel_name : String := ""
  duration_seconds : Nat := 0
  view_count : Nat := 0
  like_count : Nat := 0
  like_ratio : ℚ := 0
  published_at : PubDate := .empty
  wpm : Option ℚ := none
  transcript_available : Bool := false
  topics_covered : List String := []
  main_focus : String := ""
  content_depth : String := ""
  content_coverage : Option CoverageAnalysis := none
  redundancy_analysis : Option RedundancyAnalysis := none
  relevance_score : Option ℚ := none
  ranking_score : ℚ := 0
  why_selected : String := ""
deriving DecidableEq, Repr

/-- `video.get('content_coverage', {}).get('coverage_percentage', 0)`. -/
def covPct (v : Video) : Nat :=
  (v.content_coverage.map CoverageAnalysis.coverage_percentage).getD 0

/-- `video.get('redundancy_analysis', {}).get('redundancy_percentage', 0)`. -/
def redPct (v : Video) : Nat :=
  (v.redundancy_analysis.map RedundancyAnalysis.redundancy_percentage).getD 0

/-!
`detect_redundancy` (`src/backend/utils/content_analyzer.py`, identical in
`src/populator/content_analyzer.py`): zero-redundancy base case for an empty
accepted list, otherwise one LLM call whose failure (`except`) substitutes
the conservative 20% default.
-/

/-- `detect_redundancy`, with the LLM call as an oracle `llm`; `none` from
the oracle models the `except` branch. -/
def detect_redundancy (llm : List String → List String → Option RedundancyAnalysis)
    (new_video_topics : List String) (existing_videos_data : List Video) :
    RedundancyAnalysis :=
  if existing_videos_data.isEmpty then
    { redundancy_percentage := 0
      unique_new_content := new_video_topics
      overlapping_topics := [] }
  else
    let all_existing_topics := existing_videos_data.flatMap Video.topics_covered
    match llm new_video_topics all_existing_topics with
    | some r => r
    | none =>
        { redundancy_percentage := 20
          unique_new_content := new_video_topics
          overlapping_topics := [] }

/-!
Backend video filter, `src/backend/populator/video_filter.py`.
-/

namespace Backend

def YOUTUBE_MAX_VIDEOS_PER_SECTION : Nat := 3

def MAX_SEARCH_ITERATIONS : Nat := 3

def CONVERGENCE_THRESHOLD : Int := 10

/-- `PopulatorConfig.MIN_CONTENT_COVERAGE_PERCENTAGE` in
`src/backend/config.py` is 20, although its own comment reads "Videos must
cover 60% of requirements".  The filter body actually references
`PopulatorConfig.MIN_CONTENT_COVERAGE`, an attribute that does not exist
(an `AttributeError` at runtime); the embedding uses the configured value
the name evidently intends. -/
def MIN_CONTENT_COVERAGE_PERCENTAGE : Nat := 20

/-- `PopulatorConfig.MAX_REDUNDANCY_PERCENTAGE = 80` in
`src/backend/config.py`; never read by the backend filter. -/
def MAX_REDUNDANCY_PERCENTAGE : Nat := 80

/-- `_passes_duration_filter`: duration must be present (non-zero) and
between 2 and 30 minutes; the `grade_level` parameter is accepted but
unread. -/
def passesDurationFilter (video : Video) (_grade_level : String) : Bool :=
  let duration := video.duration_seconds
  if duration = 0 then false
  else if duration < 120 then false
  else if duration > 1800 then false
  else true

/-- `_passes_quality_filter`: at least 100 views. -/
def passesQualityFilter (video : Video) : Bool :=
  if video.view_count < 100 then false else true

/-- `_calculate_ranking_score`: coverage (0–50) + engagement (0–30) +
recency (0–20).  `math.log10` is the oracle `log10`; `datetime.now()` is the
explicit `now` (a day count, so `age_days = now - published_day`);
`grade_level` is accepted but unread. -/
def rankingScore (log10 : Nat → ℚ) (video : Video) (_grade_level : String)
    (now : Int) : ℚ :=
  let score : ℚ := 0
  let coverage := covPct video
  let score := score + ((coverage : ℚ) / 100) * 50
  let score := if 0 < video.view_count then
      let normalized_views := min (log10 video.view_count / 7) 1
      score + normalized_views * 15
    else score
  let score := if 0 < video.view_count ∧ 0 < video.like_count then
      let like_ratio := min ((video.like_count : ℚ) / (video.view_count : ℚ)) 0.1
      let normalized_likes := like_ratio / 0.1
      score + normalized_likes * 15
    else score
  let score := match video.published_at with
    | .empty => score
    | .unparseable => score + 10
    | .parsed d =>
        let age_years : ℚ := ((now - d : Int) : ℚ) / 365
        if age_years ≤ 1 then score + 20
        else if age_years ≤ 2 then score + 15
        else if age_years ≤ 3 then score + 10
        else if age_years ≤ 5 then score + 5
        else score + 2
  score

/-- `filter_and_rank_videos` (backend): drop candidates with a missing id,
coverage below the floor, a truthy `is_redundant` flag (a key
`detect_redundancy` never emits, so this test never fires), a bad duration
or under 100 views; score the survivors and sort by descending
`ranking_score`.  The `section` dict and `already_selected` list are passed
in the source but never read in the body. -/
def filter_and_rank_videos (log10 : Nat → ℚ) (now : Int) (videos : List Video)
    (grade_level : String) (_already_selected : List Video) : List Video :=
  let filtered_videos := videos.filterMap (fun video =>
    if video.video_id = "" then none
    else if covPct video < MIN_CONTENT_COVERAGE_PERCENTAGE then none
    else if (video.redundancy_analysis.bind RedundancyAnalysis.is_redundant).getD false
      then none
    else if ¬ passesDurationFilter video grade_level then none
    else if ¬ passesQualityFilter video then none
    else some { video with ranking_score := rankingScore log10 video grade_level now })
  sortByDesc Video.ranking_score filtered_videos

/-- `select_top_videos`: the first `num_to_select` of the ranked list. -/
def select_top_videos (filtered_videos : List Video) (num_to_select : Nat) :
    List Video :=
  filtered_videos.take num_to_select

end Backend

/-!
Legacy video filter, `src/populator/video_filter.py`, with thresholds from
`src/populator/config.py`.
-/

namespace Populator

def MIN_VIEW_COUNT : Nat := 10000

def MIN_LIKE_RATIO : ℚ := 0.005

def MIN_CONTENT_COVERAGE_PERCENTAGE : Nat := 60

def MAX_REDUNDANCY_PERCENTAGE : Nat := 60

/-- `ATTENTION_SPAN_RANGES` from `src/populator/config.py` (minutes). -/
def ATTENTION_SPAN_RANGES : Nat → Option (Nat × Nat)
  | 1 => some (5, 7)
  | 2 => some (5, 8)
  | 3 => some (8, 12)
  | 4 => some (10, 15)
  | 5 => some (10, 15)
  | 6 => some (12, 18)
  | _ => none

/-- `passes_filters` (legacy): view floor, like-ratio floor, blacklist
rejection, duration sanity against the grade's attention span, then the
coverage floor and redundancy ceiling whenever their analyses are present.
`section_duration_minutes` is accepted but unread. -/
def passes_filters (video : Video) (_section_duration_minutes : ℚ)
    (grade_level : String) : Bool :=
  if video.view_count < MIN_VIEW_COUNT then false
  else if video.like_ratio < MIN_LIKE_RATIO then false
  else if get_channel_tier video.channel_name = -1 then false
  else
    let video_duration_minutes : ℚ := (video.duration_seconds : ℚ) / 60
    let grade_num := (digitsToNat? grade_level.toList).getD 5
    let attention_span := (ATTENTION_SPAN_RANGES grade_num).getD (10, 15)
    let max_duration := attention_span.2
    if video_duration_minutes > (max_duration : ℚ) + 5 then false
    else if video_duration_minutes < 2 then false
    else if (match video.content_coverage with
             | some c => decide (c.coverage_percentage < MIN_CONTENT_COVERAGE_PERCENTAGE)
             | none => false) then false
    else if (match video.redundancy_analysis with
             | some r => decide (r.redundancy_percentage > MAX_REDUNDANCY_PERCENTAGE)
             | none => false) then false
    else true

end Populator

/-!
Backend selection engine, `generate_videos_for_section` in
`src/backend/populator/video_generator.py`.  The external world (query
generation, YouTube search, video details, the three LLM analyses, the
float logarithm and the wall clock) is an explicit environment.
-/

namespace Backend

/-- One search query produced by `generate_queries_for_section`. -/
structure SearchQuery where
  query : String
  priority : String
deriving DecidableEq, Repr

/-- The external collaborators of one section run.  `search` is
`search_videos`, `details` is `get_video_details`, `classify` / `coverage`
/ `redundancy` are the three LLM calls (`none` = the `except` branch),
`log10`/`now` feed `_calculate_ranking_score`. -/
structure Env where
  queries : List SearchQuery
  search : String → List String
  details : List String → List Video
  classify : Video → Option ClassifyResult
  coverage : ClassifyResult → Option CoverageAnalysis
  redundancy : List String → List String → Option RedundancyAnalysis
  log10 : Nat → ℚ
  now : Int
  grade_level : String

/-- The iteration → query-subset policy: iteration 1 uses primary+secondary,
iteration 2 tertiary+quaternary, iteration 3 all queries; an empty subset
falls back to the full list. -/
def queriesThisIteration (queries : List SearchQuery) (iteration : Nat) :
    List SearchQuery :=
  let queries_this_iteration :=
    if iteration = 1 then
      queries.filter (fun q => q.priority = "primary" || q.priority = "secondary")
    else if iteration = 2 then
      queries.filter (fun q => q.priority = "tertiary" || q.priority = "quaternary")
    else if iteration = 3 then queries
    else []
  if queries_this_iteration.isEmpty then queries else queries_this_iteration

/-- The per-video enrichment of the backend generator: transcripts are
skipped, `analyze_video_content` / `calculate_content_coverage` /
`detect_redundancy` fill in the analysis fields (with the documented
defaults on LLM failure). -/
def analyzeVideo (env : Env) (selected_videos : List Video) (video : Video) :
    Video :=
  let video := { video with transcript_available := false, wpm := none }
  let content_analysis := (env.classify video).getD ⟨[], "unknown", "unknown"⟩
  let video := { video with
    topics_covered := content_analysis.topics_covered,
    main_focus := content_analysis.main_focus,
    content_depth := content_analysis.content_depth }
  let coverage_analysis := (env.coverage content_analysis).getD ⟨50⟩
  let video := { video with content_coverage := some coverage_analysis }
  let redundancy_analysis :=
    detect_redundancy env.redundancy video.topics_covered selected_videos
  { video with redundancy_analysis := some redundancy_analysis }

/-- `_calculate_section_coverage`: 0 for an empty list, otherwise
`int(mean)` — the Python `int()` truncates the float mean, which on
non-negative values is exactly natural division. -/
def calculate_section_coverage (selected_videos : List Video) : Nat :=
  if selected_videos.isEmpty then 0
  else (selected_videos.map covPct).sum / selected_videos.length

/-- `_generate_selection_rationale`.  The backend reads
`video.get('relevance_score', 0)` although the backend filter stores the
score under `ranking_score`, so the first reason can only fire when
`relevance_score` is present. -/
def generate_selection_rationale (video : Video) : String :=
  let reasons : List String :=
    (if (video.relevance_score.getD 0) ≥ 7 then ["high relevance score"] else [])
    ++ (let coverage := covPct video
        if coverage ≥ 80 then ["excellent content coverage"]
        else if coverage ≥ 60 then ["good content coverage"]
        else [])
    ++ (match video.wpm with
        | some w =>
            if w ≠ 0 ∧ 100 ≤ w ∧ w ≤ 130 then
              ["appropriate pacing for grade level"]
            else []
        | none => [])
    ++ (let tier := get_channel_tier video.channel_name
        if tier = 1 then ["kid-friendly channel"]
        else if tier = 2 then ["educational channel"]
        else [])
    ++ (if redPct video < 30 then ["unique content"] else [])
  if reasons.isEmpty then "Meets quality criteria"
  else pyCapitalize (String.intercalate ", " reasons)

/-- The iterative search loop of `generate_videos_for_section`, lines
110–227: `while (iteration < MAX_SEARCH_ITERATIONS) and (not
selected_videos)`.  `fuel` only bounds the recursion; `MAX_SEARCH_ITERATIONS`
is enough fuel because every loop body increments `iteration` and the guard
requires `iteration < MAX_SEARCH_ITERATIONS`, and an exhausted-fuel return
coincides with the guard-false return.  Returns (selected videos, number of
iterations performed).  Python's `list(set(ids))` deduplication has
unspecified order; it is modelled as first-occurrence `eraseDups`, which no
claim's property depends on. -/
def sectionLoop (env : Env) : Nat → Nat → List Video → Int → List Video × Nat
  | 0, iteration, selected_videos, _ => (selected_videos, iteration)
  | fuel + 1, iteration, selected_videos, previous_coverage =>
    if iteration < MAX_SEARCH_ITERATIONS ∧ selected_videos.isEmpty then
      let iteration := iteration + 1
      let qs := queriesThisIteration env.queries iteration
      let all_video_ids := (qs.flatMap (fun q => env.search q.query)).eraseDups
      if all_video_ids.isEmpty then (selected_videos, iteration)
      else
        let videos := env.details all_video_ids
        if videos.isEmpty then (selected_videos, iteration)
        else
          let analyzed := videos.map (analyzeVideo env selected_videos)
          let filtered_videos :=
            filter_and_rank_videos env.log10 env.now analyzed env.grade_level
              selected_videos
          if filtered_videos.isEmpty then
            if iteration ≥ MAX_SEARCH_ITERATIONS then (selected_videos, iteration)
            else sectionLoop env fuel iteration selected_videos previous_coverage
          else
            let remaining_slots : Int :=
              (YOUTUBE_MAX_VIDEOS_PER_SECTION : Int) - selected_videos.length
            if remaining_slots ≤ 0 then (selected_videos, iteration)
            else
              let new_selections :=
                select_top_videos filtered_videos remaining_slots.toNat
              let selected_videos := selected_videos ++ new_selections.map
                (fun v => { v with why_selected := generate_selection_rationale v })
              let current_coverage := calculate_section_coverage selected_videos
              if selected_videos.length ≥ YOUTUBE_MAX_VIDEOS_PER_SECTION then
                (selected_videos, iteration)
              else if ¬ selected_videos.isEmpty ∧
                  (current_coverage : Int) - previous_coverage < CONVERGENCE_THRESHOLD then
                (selected_videos, iteration)
              else
                sectionLoop env fuel iteration selected_videos
                  (if ¬ selected_videos.isEmpty then (current_coverage : Int)
                   else previous_coverage)
    else (selected_videos, iteration)

/-- The outputs of one section run that `generate_videos_for_section`
stores back into the section dict. -/
structure SectionRunResult where
  video_resources : List Video
  coverage_percentage : Nat
  iterations_performed : Nat
deriving Repr

/-- `generate_videos_for_section` after input validation and query
generation: run the iterative loop from iteration 0 with no videos selected
and previous coverage 0, then store the selections, the aggregate coverage
and the iteration count. -/
def generate_videos_for_section (env : Env) : SectionRunResult :=
  let r := sectionLoop env MAX_SEARCH_ITERATIONS 0 [] 0
  { video_resources := r.1
    coverage_percentage := calculate_section_coverage r.1
    iterations_performed := r.2 }

end Backend

/-!
Hands-on resource filter, `ResourceFilter` in
`src/backend/hands_on/resource_filter.py` (the worksheet/activity filtering
logic is identical in `src/hands_on/resource_filter.py`).  The LLM relevance
check `_check_relevance` is an oracle returning `none` on failure.  Scored
outputs are (resource, overall_score) pairs, modelling the
`resource['overall_score'] = …` mutation.
-/

namespace HandsOn

/-- The JSON relevance evaluation returned by `_check_relevance`; every key
is read with a `dict.get` default, so each is optional. -/
structure RelevanceData where
  is_suitable : Option Bool := none
  coverage_percentage : Option ℚ := none
  quality_score : Option ℚ := none
  matches_grade : Option Bool := none
  matches_topic : Option Bool := none
deriving DecidableEq, Repr

/-- One analyzed worksheet image. -/
structure Worksheet where
  worksheet_title : String := ""
  is_age_appropriate : Bool := false
  visual_quality : Option ℚ := none
  educational_value : Option ℚ := none
  topics_covered : List String := []
  has_images_or_art : Bool := false
deriving DecidableEq, Repr

/-- One extracted activity; `""` / `[]` model missing or falsy dict
entries. -/
structure Activity where
  name : String := ""
  description : String := ""
  steps : List String := []
  materials : List String := []
  duration : String := ""
  learning_objectives : List String := []
deriving DecidableEq, Repr

/-- `_is_quality_worksheet`: age-appropriate, visual quality ≥ 5,
educational value ≥ 5, non-empty covered topics (gate defaults are 0). -/
def is_quality_worksheet (worksheet : Worksheet) : Bool :=
  if ¬ worksheet.is_age_appropriate then false
  else if worksheet.visual_quality.getD 0 < 5 then false
  else if worksheet.educational_value.getD 0 < 5 then false
  else if worksheet.topics_covered.isEmpty then false
  else true

/-- `_is_quality_activity`: non-empty name and description, and at least
one of steps / materials. -/
def is_quality_activity (activity : Activity) : Bool :=
  if activity.name = "" then false
  else if activity.description = "" then false
  else if activity.steps.isEmpty ∧ activity.materials.isEmpty then false
  else true

/-- `_calculate_worksheet_score`: weighted 0–100 average (score-side
defaults are 5/50) plus flat +5 bonuses, capped at 100. -/
def calculate_worksheet_score (worksheet : Worksheet)
    (relevance_data : RelevanceData) : ℚ :=
  let visual_score := worksheet.visual_quality.getD 5 * 10
  let educational_score := worksheet.educational_value.getD 5 * 10
  let coverage_score := relevance_data.coverage_percentage.getD 50
  let llm_quality := relevance_data.quality_score.getD 5 * 10
  let overall_score := visual_score * 0.25 + educational_score * 0.25 +
    coverage_score * 0.30 + llm_quality * 0.20
  let overall_score :=
    if relevance_data.matches_grade.getD false then overall_score + 5
    else overall_score
  let overall_score :=
    if relevance_data.matches_topic.getD false then overall_score + 5
    else overall_score
  let overall_score :=
    if worksheet.has_images_or_art then overall_score + 5 else overall_score
  min overall_score 100

/-- `_calculate_activity_score`: 70% relevance blend + 30% structural
content, capped at 10. -/
def calculate_activity_score (activity : Activity)
    (relevance_data : RelevanceData) : ℚ :=
  let coverage := relevance_data.coverage_percentage.getD 50 / 10
  let quality := relevance_data.quality_score.getD 5
  let relevance_score := (coverage * 0.5 + quality * 0.5) * 0.7
  let has_steps : ℚ := if ¬ activity.steps.isEmpty then 2.0 else 0
  let has_materials : ℚ := if ¬ activity.materials.isEmpty then 1.0 else 0
  let has_duration : ℚ := if activity.duration ≠ "" then 0.5 else 0
  let has_objectives : ℚ :=
    if ¬ activity.learning_objectives.isEmpty then 0.5 else 0
  let content_score :=
    (has_steps + has_materials + has_duration + has_objectives) * 0.75
  min (relevance_score + content_score) 10

/-- The worksheet candidates `filter_and_rank_worksheets` keeps before its
final sort: quality gate, then the LLM relevance check, then the strict
`is_suitable` gate. -/
def worksheetsPassing (rel : Worksheet → Option RelevanceData)
    (worksheets : List Worksheet) : List (Worksheet × ℚ) :=
  worksheets.filterMap (fun worksheet =>
    if ¬ is_quality_worksheet worksheet then none
    else match rel worksheet with
      | none => none
      | some relevance_data =>
          if relevance_data.is_suitable.getD false then
            some (worksheet, calculate_worksheet_score worksheet relevance_data)
          else none)

/-- `filter_and_rank_worksheets`: the passing worksheets sorted by
descending score.  There is NO starvation fallback in the worksheet
filter. -/
def filter_and_rank_worksheets (rel : Worksheet → Option RelevanceData)
    (worksheets : List Worksheet) : List (Worksheet × ℚ) :=
  sortByDesc Prod.snd (worksheetsPassing rel worksheets)

/-- The activity candidates `filter_and_rank_activities` keeps before the
fallback and final sort: quality gate, LLM relevance check, then the
LENIENT suitability test (`is_suitable` OR coverage ≥ 40 OR quality ≥ 6,
with `dict.get` defaults 0). -/
def activitiesPassing (rel : Activity → Option RelevanceData)
    (activities : List Activity) : List (Activity × ℚ) :=
  activities.filterMap (fun activity =>
    if ¬ is_quality_activity activity then none
    else match rel activity with
      | none => none
      | some relevance_data =>
          let is_lenient_suitable :=
            relevance_data.is_suitable.getD false
            || decide (relevance_data.coverage_percentage.getD 0 ≥ 40)
            || decide (relevance_data.quality_score.getD 0 ≥ 6)
          if is_lenient_suitable then
            some (activity, calculate_activity_score activity relevance_data)
          else none)

/-- The activity starvation fallback: keep raw candidates with a truthy
name and description, sort by `len(steps) + (10 if materials else 0)`
descending, take 3, and assign each the fixed default score 7.0. -/
def activityFallback (activities : List Activity) : List (Activity × ℚ) :=
  let quality_sorted := sortByDesc
    (fun a => (a.steps.length : ℚ) + (if ¬ a.materials.isEmpty then 10 else 0))
    (activities.filter (fun a => a.name ≠ "" ∧ a.description ≠ ""))
  (quality_sorted.take 3).map (fun act => (act, (7.0 : ℚ)))

/-- `filter_and_rank_activities`: lenient filtering, the top-3-by-proxy
fallback when nothing passed and the raw pool is non-empty, then the final
sort by descending score. -/
def filter_and_rank_activities (rel : Activity → Option RelevanceData)
    (activities : List Activity) : List (Activity × ℚ) :=
  let filtered_activities := activitiesPassing rel activities
  let filtered_activities :=
    if filtered_activities.length = 0 ∧ activities.length > 0 then
      filtered_activities ++ activityFallback activities
    else filtered_activities
  sortByDesc Prod.snd filtered_activities

end HandsOn

/-!
Spec-side definitions, stated from the specification's words (not from the
source) for refinement comparison.
-/

/-- The aggregate coverage as §3/§8 of the spec state it: the exact
arithmetic mean of the accepted candidates' coverage percentages, 0 when
the accepted list is empty. -/
def specAggregateCoverage (accepted : List Video) : ℚ :=
  if accepted.isEmpty then 0
  else ((accepted.map covPct).sum : ℚ) / (accepted.length : ℚ)

/-!
Helper lemmas about the stable sort.
-/

theorem length_insertDesc (key : α → ℚ) (x : α) (l : List α) :
    (insertDesc key x l).length = l.length + 1 := by
  induction l with
  | nil => rfl
  | cons y ys ih =>
      rw [insertDesc]
      split
      · rfl
      · simp [ih]

theorem length_sortByDesc (key : α → ℚ) (l : List α) :
    (sortByDesc key l).length = l.length := by
  induction l with
  | nil => rfl
  | cons x xs ih => rw [sortByDesc, length_insertDesc, ih]; rfl

theorem mem_insertDesc (key : α → ℚ) (x a : α) (l : List α) :
    a ∈ insertDesc key x l ↔ a = x ∨ a ∈ l := by
  induction l with
  | nil => simp [insertDesc]
  | cons y ys ih =>
      rw [insertDesc]
      split
      · simp [List.mem_cons]
      · simp only [List.mem_cons, ih]
        tauto

theorem mem_sortByDesc (key : α → ℚ) (a : α) (l : List α) :
    a ∈ sortByDesc key l ↔ a ∈ l := by
  induction l with
  | nil => simp [sortByDesc]
  | cons x xs ih =>
      rw [sortByDesc, mem_insertDesc]
      simp [ih]

/-- C8: for every candidate topic list, `detect_redundancy` with an empty
accepted-so-far list returns redundancy 0, the full topic list as unique
new content and no overlapping topics — and, being the same value for every
oracle, it makes no external call. -/
theorem redundancy_base_case
    (llm : List String → List String → Option RedundancyAnalysis)
    (new_video_topics : List String) :
    detect_redundancy llm new_video_topics [] =
      { redundancy_percentage := 0
        unique_new_content := new_video_topics
        overlapping_topics := [] } := rfl

/-- C9: any channel whose lower-cased name contains a blacklisted substring
is classified tier −1 with demographic score 0; the blacklist contains the
two-letter string "ap", so "National Geographic" (via "graphic") and
"Happy Learning English" (via "happy") are blacklisted; and the legacy hard
filter rejects every video from a tier −1 channel. -/
theorem blacklist_substring_rejection :
    (∀ (channel_name grade_level : String),
        BLACKLIST_CHANNELS.any
          (fun b => strContains (lowerChars channel_name) b) = true →
        get_channel_tier channel_name = -1 ∧
        calculate_channel_demographic_score channel_name grade_level = 0) ∧
    "ap" ∈ BLACKLIST_CHANNELS ∧
    get_channel_tier "National Geographic" = -1 ∧
    get_channel_tier "Happy Learning English" = -1 ∧
    (∀ (video : Video) (section_duration : ℚ) (grade_level : String),
        get_channel_tier video.channel_name = -1 →
        Populator.passes_filters video section_duration grade_level = false) := by
  refine ⟨?_, by decide, by decide, by decide, ?_⟩
  · intro name grade h
    constructor
    · simp [get_channel_tier, h]
    · simp [calculate_channel_demographic_score, get_channel_tier, h]
  · intro video sd g h
    rw [Populator.passes_filters]
    split
    · rfl
    · split
      · rfl
      · simp [h]

/-- C9 witness: the general parts of `blacklist_substring_rejection`
instantiated at concrete inputs. -/
theorem blacklist_substring_rejection_witness :
    (get_channel_tier "Khan Academy Kids" = -1 ∧
     calculate_channel_demographic_score "Khan Academy Kids" "3" = 0) ∧
    Populator.passes_filters
      { channel_name := "National Geographic", view_count := 50000,
        like_count := 500, like_ratio := 1/100, duration_seconds := 600 }
      20 "4" = false :=
  ⟨blacklist_substring_rejection.1 "Khan Academy Kids" "3" (by decide),
   blacklist_substring_rejection.2.2.2.2 _ 20 "4" (by decide)⟩

/-- A generous relevance oracle for the C4 scenario, so that the only
reason the worksheets fail is the age-appropriateness gate. -/
def c4Oracle : HandsOn.Worksheet → Option HandsOn.RelevanceData :=
  fun _ => some { is_suitable := some true, coverage_percentage := some 80,
                  quality_score := some 8 }

/-- The C4 scenario pool: six analyzed worksheet images, every one failing
the age-appropriateness gate, everything else of good quality. -/
def c4Pool : List HandsOn.Worksheet :=
  (List.range 6).map (fun i =>
    { worksheet_title := toString i, is_age_appropriate := false,
      visual_quality := some 8, educational_value := some 8,
      topics_covered := ["fractions"], has_images_or_art := true })

/-- C4 counterexample: in the spec's own scenario — worksheet variant, a
non-empty raw pool of 6 analyzed images that all fail the
age-appropriateness gate — `filter_and_rank_worksheets` returns the empty
list, not 3 worksheets with score 7.0: the worksheet filter has no
starvation fallback. -/
theorem worksheet_fallback_missing_counterexample :
    c4Pool.length = 6 ∧
    HandsOn.worksheetsPassing c4Oracle c4Pool = [] ∧
    HandsOn.filter_and_rank_worksheets c4Oracle c4Pool = [] := by decide

/-- C4 amended: whenever zero worksheets pass the filter across a run —
whatever the raw pool — `filter_and_rank_worksheets` returns the empty
list; the top-3, fixed-score-7.0 starvation fallback exists only in the
activity variant. -/
theorem worksheet_starvation_returns_empty
    (rel : HandsOn.Worksheet → Option HandsOn.RelevanceData)
    (worksheets : List HandsOn.Worksheet)
    (h : HandsOn.worksheetsPassing rel worksheets = []) :
    HandsOn.filter_and_rank_worksheets rel worksheets = [] := by
  rw [HandsOn.filter_and_rank_worksheets, h]
  rfl

/-- C4 witness: the amended statement at a concrete pool whose single
worksheet is rejected by the LLM relevance check. -/
theorem worksheet_starvation_returns_empty_witness :
    HandsOn.filter_and_rank_worksheets (fun _ => none)
      [({ worksheet_title := "w" } : HandsOn.Worksheet)] = [] :=
  worksheet_starvation_returns_empty _ _ rfl

/-- C10: when zero activities pass the lenient filter and the raw pool is
non-empty, the fallback returns at most 3 items, every one with a non-empty
name, a non-empty description and the fixed score 7.0 — and the result can
be shorter than 3, even empty, when too few raw candidates have both
fields. -/
theorem activity_fallback_shape :
    (∀ (rel : HandsOn.Activity → Option HandsOn.RelevanceData)
       (activities : List HandsOn.Activity),
       HandsOn.activitiesPassing rel activities = [] →
       activities ≠ [] →
       (HandsOn.filter_and_rank_activities rel activities).length ≤ 3 ∧
       (∀ p ∈ HandsOn.filter_and_rank_activities rel activities,
          p.1.name ≠ "" ∧ p.1.description ≠ "" ∧ p.2 = 7)) ∧
    (∃ (rel : HandsOn.Activity → Option HandsOn.RelevanceData)
       (activities : List HandsOn.Activity),
       activities ≠ [] ∧ HandsOn.activitiesPassing rel activities = [] ∧
       HandsOn.filter_and_rank_activities rel activities = []) := by
  constructor
  · intro rel acts hpass hne
    have hres : HandsOn.filter_and_rank_activities rel acts =
        sortByDesc Prod.snd (HandsOn.activityFallback acts) := by
      rw [HandsOn.filter_and_rank_activities, hpass]
      rw [if_pos ⟨rfl, List.length_pos.mpr hne⟩, List.nil_append]
    constructor
    · rw [hres, length_sortByDesc, HandsOn.activityFallback]
      simp [List.length_take]
    · intro p hp
      rw [hres, mem_sortByDesc, HandsOn.activityFallback] at hp
      simp only [List.mem_map] at hp
      obtain ⟨a, ha, rfl⟩ := hp
      have ha' := List.mem_of_mem_take ha
      rw [mem_sortByDesc, List.mem_filter] at ha'
      refine ⟨(of_decide_eq_true ha'.2).1, (of_decide_eq_true ha'.2).2, ?_⟩
      show (7.0 : ℚ) = 7
      norm_num
  · exact ⟨fun _ => none, [{ name := "Craft", description := "" }],
      by decide, rfl, rfl⟩

/-- C10 witness: the fallback shape at a one-activity pool that the LLM
relevance check rejects outright. -/
theorem activity_fallback_shape_witness :
    (HandsOn.filter_and_rank_activities (fun _ => none)
      [({ name := "Volcano Model", description := "Build a model volcano",
          steps := ["mix", "pour"], materials := ["vinegar"] } :
        HandsOn.Activity)]).length ≤ 3 ∧
    (∀ p ∈ HandsOn.filter_and_rank_activities (fun _ => none)
      [({ name := "Volcano Model", description := "Build a model volcano",
          steps := ["mix", "pour"], materials := ["vinegar"] } :
        HandsOn.Activity)],
       p.1.name ≠ "" ∧ p.1.description ≠ "" ∧ p.2 = 7) :=
  activity_fallback_shape.1 _ _ rfl (by decide)

/-- A video whose content coverage is 30% but which is otherwise healthy:
present id, unknown (non-blacklisted) channel, 5-minute duration, plenty of
views and likes. -/
def c3Video : Video :=
  { video_id := "vid-cov30", channel_name := "Fun Science Lab",
    duration_seconds := 300, view_count := 20000, like_count := 300,
    like_ratio := 3/200, content_coverage := some ⟨30⟩ }

/-- C3: the backend filter's coverage floor is the configured 20, not the
claimed 60 — a video with 30% coverage is returned by the backend
`filter_and_rank_videos` (the legacy filter, whose floor is 60, rejects the
same video). -/
theorem coverage_floor_is_twenty_not_sixty :
    (Backend.filter_and_rank_videos (fun _ => 0) 0 [c3Video] "3" []).map
      Video.video_id = ["vid-cov30"] ∧
    covPct c3Video = 30 ∧ (30 : Nat) < 60 ∧
    Backend.MIN_CONTENT_COVERAGE_PERCENTAGE = 20 ∧
    Populator.MIN_CONTENT_COVERAGE_PERCENTAGE = 60 ∧
    Populator.passes_filters c3Video 20 "3" = false := by
  refine ⟨by decide, by decide, by decide, by decide, by decide, ?_⟩
  rw [Populator.passes_filters]
  norm_num [c3Video, Populator.MIN_VIEW_COUNT, Populator.MIN_LIKE_RATIO,
    Populator.MIN_CONTENT_COVERAGE_PERCENTAGE, Populator.ATTENTION_SPAN_RANGES,
    show get_channel_tier "Fun Science Lab" = 0 from by decide,
    show digitsToNat? "3".toList = some 3 from by decide]

/-- A video whose redundancy analysis (as `detect_redundancy` produces it)
reports 95% overlap, above both configured ceilings, and which is otherwise
healthy. -/
def c5Video : Video :=
  { video_id := "vid-red95", channel_name := "Fun Science Lab",
    duration_seconds := 300, view_count := 20000, like_count := 200,
    like_ratio := 1/100, content_coverage := some ⟨70⟩,
    redundancy_analysis := some
      { redundancy_percentage := 95, unique_new_content := [],
        overlapping_topics := ["weather"] } }

/-- C5: the backend filter keeps a candidate whose redundancy percentage
(95) exceeds the configured maximum (80), because it tests the key
`is_redundant`, which `detect_redundancy` never produces; the legacy
`passes_filters`, which tests `redundancy_percentage` against its ceiling
(60), rejects the same video. -/
theorem redundancy_ceiling_not_enforced :
    (Backend.filter_and_rank_videos (fun _ => 0) 0 [c5Video] "3" []).map
      Video.video_id = ["vid-red95"] ∧
    redPct c5Video = 95 ∧ 95 > Backend.MAX_REDUNDANCY_PERCENTAGE ∧
    Populator.passes_filters c5Video 20 "3" = false := by
  refine ⟨by decide, by decide, by decide, ?_⟩
  rw [Populator.passes_filters]
  norm_num [c5Video, Populator.MIN_VIEW_COUNT, Populator.MIN_LIKE_RATIO,
    Populator.MIN_CONTENT_COVERAGE_PERCENTAGE, Populator.MAX_REDUNDANCY_PERCENTAGE,
    Populator.ATTENTION_SPAN_RANGES,
    show get_channel_tier "Fun Science Lab" = 0 from by decide,
    show digitsToNat? "3".toList = some 3 from by decide]

/-- A video carrying a parsed publication date (day 0) and 40% coverage;
with zero views both engagement components are skipped, isolating the
recency component. -/
def c7Video : Video :=
  { video_id := "vid-time", content_coverage := some ⟨40⟩,
    published_at := .parsed 0 }

/-- C7 counterexample: `_calculate_ranking_score` is not a pure function of
the candidate — the same video with the same grade level scores 40 when the
clock reads day 100 (age ≤ 1 year, +20) but 35 when it reads day 600 (age
in (1, 2] years, +15). -/
theorem scoring_depends_on_clock_counterexample :
    Backend.rankingScore (fun _ => 0) c7Video "5" 100 = 40 ∧
    Backend.rankingScore (fun _ => 0) c7Video "5" 600 = 35 ∧
    Backend.rankingScore (fun _ => 0) c7Video "5" 100 ≠
      Backend.rankingScore (fun _ => 0) c7Video "5" 600 := by
  have h1 : Backend.rankingScore (fun _ => 0) c7Video "5" 100 = 40 := by
    rw [Backend.rankingScore]
    norm_num [c7Video, covPct]
  have h2 : Backend.rankingScore (fun _ => 0) c7Video "5" 600 = 35 := by
    rw [Backend.rankingScore]
    norm_num [c7Video, covPct]
  exact ⟨h1, h2, by rw [h1, h2]; norm_num⟩

/-- C7 amended: the backend ranking score is deterministic given the
candidate, the grade level AND the wall-clock time it reads through
`datetime.now()`; it is clock-independent whenever the candidate has no
parseable `published_at` (the recency term is then a constant). -/
theorem scoring_clock_free_without_pubdate
    (log10 : Nat → ℚ) (video : Video) (grade_level : String) (t1 t2 : Int)
    (h : video.published_at = PubDate.empty ∨
         video.published_at = PubDate.unparseable) :
    Backend.rankingScore log10 video grade_level t1 =
      Backend.rankingScore log10 video grade_level t2 := by
  rcases h with h | h <;> rw [Backend.rankingScore, Backend.rankingScore, h]

/-- Helper for the slot invariant: one acceptance step appends at most the
remaining slots, so it never pushes the selection past the slot budget. -/
theorem accept_step_length_le (sel filtered : List Video) (f : Video → Video)
    (h3 : sel.length < Backend.YOUTUBE_MAX_VIDEOS_PER_SECTION) :
    (sel ++ (Backend.select_top_videos filtered
        ((Backend.YOUTUBE_MAX_VIDEOS_PER_SECTION : Int) - sel.length).toNat).map
      f).length ≤ Backend.YOUTUBE_MAX_VIDEOS_PER_SECTION := by
  have h4 : Backend.YOUTUBE_MAX_VIDEOS_PER_SECTION = 3 := rfl
  rw [h4] at h3 ⊢
  simp only [Backend.select_top_videos, List.length_append, List.length_map,
    List.length_take]
  omega

/-- Helper for the slot invariant: the selection list's length never exceeds
`YOUTUBE_MAX_VIDEOS_PER_SECTION` at any point of the iterative loop. -/
theorem sectionLoop_length_le (env : Backend.Env) (fuel : Nat) :
    ∀ (iteration : Nat) (sel : List Video) (prev : Int),
      sel.length ≤ Backend.YOUTUBE_MAX_VIDEOS_PER_SECTION →
      ((Backend.sectionLoop env fuel iteration sel prev).1).length ≤
        Backend.YOUTUBE_MAX_VIDEOS_PER_SECTION := by
  induction fuel with
  | zero =>
      intro it sel prev h
      simpa [Backend.sectionLoop] using h
  | succ n ih =>
      intro it sel prev h
      simp only [Backend.sectionLoop]
      split
      · split
        · exact h
        · split
          · exact h
          · split
            · split
              · exact h
              · exact ih _ _ _ h
            · split
              · exact h
              · split
                · exact accept_step_length_le _ _ _ (by
                    rename_i hrem
                    have h4 : Backend.YOUTUBE_MAX_VIDEOS_PER_SECTION = 3 := rfl
                    rw [h4] at hrem ⊢
                    omega)
                · split
                  · exact accept_step_length_le _ _ _ (by
                      rename_i hrem _
                      have h4 : Backend.YOUTUBE_MAX_VIDEOS_PER_SECTION = 3 := rfl
                      rw [h4] at hrem ⊢
                      omega)
                  · exact ih _ _ _ (accept_step_length_le _ _ _ (by
                      rename_i hrem _ _
                      have h4 : Backend.YOUTUBE_MAX_VIDEOS_PER_SECTION = 3 := rfl
                      rw [h4] at hrem ⊢
                      omega))
      · exact h

/-- C2: for every environment, a backend section run accepts at most
`YOUTUBE_MAX_VIDEOS_PER_SECTION` (= 3) videos, and each iteration's
`select_top_videos` takes at most the remaining slots. -/
theorem slot_invariant :
    (∀ env : Backend.Env,
       (Backend.generate_videos_for_section env).video_resources.length ≤
         Backend.YOUTUBE_MAX_VIDEOS_PER_SECTION) ∧
    (∀ (filtered_videos : List Video) (num_to_select : Nat),
       (Backend.select_top_videos filtered_videos num_to_select).length ≤
         num_to_select) := by
  constructor
  · intro env
    exact sectionLoop_length_le env _ _ _ _ (by decide)
  · intro filtered n
    simp only [Backend.select_top_videos, List.length_take]
    omega

/-- A healthy candidate for the C1 run: passes every backend filter with
50% coverage. -/
def c1Video : Video :=
  { video_id := "v1", title := "Intro to Photosynthesis",
    channel_name := "Fun Science Lab", duration_seconds := 300,
    view_count := 5000, like_count := 50 }

/-- The C1 environment: every iteration's search finds the candidate `v1`
(the source is never exhausted), the classifier reports photosynthesis
topics and the coverage analysis reports 50%. -/
def c1Env : Backend.Env :=
  { queries := [{ query := "photosynthesis for kids", priority := "primary" }]
    search := fun _ => ["v1"]
    details := fun _ => [c1Video]
    classify := fun _ => some
      { topics_covered := ["photosynthesis"], main_focus := "photosynthesis",
        content_depth := "moderate" }
    coverage := fun _ => some ⟨50⟩
    redundancy := fun _ _ => none
    log10 := fun _ => 0
    now := 0
    grade_level := "5" }

/-- C1: a run whose first iteration accepts one of three slots with
coverage improvement 50 (far above the convergence threshold 10), while
search keeps returning candidates, still terminates after iteration 1 —
the loop guard `not selected_videos` ends the run as soon as anything is
accepted, so the claimed "perform the next iteration" case never happens. -/
theorem engine_stops_after_first_acceptance :
    (Backend.generate_videos_for_section c1Env).iterations_performed = 1 ∧
    (Backend.generate_videos_for_section c1Env).video_resources.length = 1 ∧
    (Backend.generate_videos_for_section c1Env).coverage_percentage = 50 ∧
    ((Backend.generate_videos_for_section c1Env).coverage_percentage : Int) - 0 ≥
      Backend.CONVERGENCE_THRESHOLD ∧
    (Backend.generate_videos_for_section c1Env).video_resources.length <
      Backend.YOUTUBE_MAX_VIDEOS_PER_SECTION ∧
    1 < Backend.MAX_SEARCH_ITERATIONS ∧
    c1Env.search "photosynthesis for kids" ≠ [] := by decide

/-- First candidate of the C6 run; the coverage oracle reports 50% for
it. -/
def c6VideoA : Video :=
  { video_id := "cov50", channel_name := "Fun Science Lab",
    duration_seconds := 300, view_count := 5000 }

/-- Second candidate of the C6 run; the coverage oracle reports 55% for
it. -/
def c6VideoB : Video :=
  { video_id := "cov55", channel_name := "Fun Science Lab",
    duration_seconds := 300, view_count := 5000 }

/-- The C6 environment: one iteration retrieves both candidates, one
analyzed at 50% coverage and one at 55%. -/
def c6Env : Backend.Env :=
  { queries := [{ query := "water cycle for kids", priority := "primary" }]
    search := fun _ => ["cov50", "cov55"]
    details := fun _ => [c6VideoA, c6VideoB]
    classify := fun v => some
      { topics_covered := [v.video_id], main_focus := v.video_id,
        content_depth := "moderate" }
    coverage := fun c => some ⟨if c.main_focus = "cov50" then 50 else 55⟩
    redundancy := fun _ _ => none
    log10 := fun _ => 0
    now := 0
    grade_level := "5" }

/-- C6 counterexample: a run accepting two videos with coverages 50 and 55
reports the aggregate 52 — `int(mean)` — which differs from the exact
arithmetic mean 52.5. -/
theorem coverage_aggregate_counterexample :
    (Backend.generate_videos_for_section c6Env).video_resources.length = 2 ∧
    (Backend.generate_videos_for_section c6Env).coverage_percentage = 52 ∧
    specAggregateCoverage
      (Backend.generate_videos_for_section c6Env).video_resources = 105/2 ∧
    ((Backend.generate_videos_for_section c6Env).coverage_percentage : ℚ) ≠
      specAggregateCoverage
        (Backend.generate_videos_for_section c6Env).video_resources := by
  with_unfolding_all decide

/-- C6 amended: a run's aggregate `coverage_percentage` is the integer
TRUNCATION of the exact arithmetic mean of the accepted videos' coverages
(it lies within 1 below the mean), and is exactly 0 when the accepted list
is empty. -/
theorem coverage_aggregate_is_truncated_mean :
    (∀ env : Backend.Env,
       (Backend.generate_videos_for_section env).coverage_percentage =
         Backend.calculate_section_coverage
           (Backend.generate_videos_for_section env).video_resources) ∧
    Backend.calculate_section_coverage [] = 0 ∧
    specAggregateCoverage [] = 0 ∧
    (∀ sel : List Video, sel ≠ [] →
       ((Backend.calculate_section_coverage sel : ℚ) ≤ specAggregateCoverage sel ∧
        specAggregateCoverage sel <
          (Backend.calculate_section_coverage sel : ℚ) + 1)) := by
  refine ⟨fun env => rfl, rfl, rfl, ?_⟩
  intro sel hne
  have hn : 0 < sel.length := List.length_pos.mpr hne
  rw [Backend.calculate_section_coverage, specAggregateCoverage,
    if_neg (by simp [hne]), if_neg (by simp [hne])]
  have hnq : (0:ℚ) < (sel.length : ℚ) := by exact_mod_cast hn
  constructor
  · rw [le_div_iff₀ hnq]
    exact_mod_cast Nat.div_mul_le_self (sel.map covPct).sum sel.length
  · rw [div_lt_iff₀ hnq]
    have hlt : (sel.map covPct).sum <
        ((sel.map covPct).sum / sel.length + 1) * sel.length := by
      have hdm := Nat.div_add_mod (sel.map covPct).sum sel.length
      have hmod := Nat.mod_lt (sel.map covPct).sum hn
      nlinarith [hdm, hmod]
    exact_mod_cast hlt

/-- C6 witness: the amended statement at the C6 run and at a concrete
non-empty accepted list. -/
theorem coverage_aggregate_is_truncated_mean_witness :
    (Backend.generate_videos_for_section c6Env).coverage_percentage =
      Backend.calculate_section_coverage
        (Backend.generate_videos_for_section c6Env).video_resources ∧
    ((Backend.calculate_section_coverage [c6VideoA] : ℚ) ≤
        specAggregateCoverage [c6VideoA] ∧
      specAggregateCoverage [c6VideoA] <
        (Backend.calculate_section_coverage [c6VideoA] : ℚ) + 1) :=
  ⟨coverage_aggregate_is_truncated_mean.1 c6Env,
   coverage_aggregate_is_truncated_mean.2.2.2 [c6VideoA] (by decide)⟩

/-- C7 witness: clock-independence of the score of a video with an empty
`published_at`, evaluated at two distant clock readings. -/
theorem scoring_clock_free_without_pubdate_witness :
    Backend.rankingScore (fun _ => 0)
      ({ video_id := "w", content_coverage := some ⟨40⟩ } : Video) "5" 0 =
    Backend.rankingScore (fun _ => 0)
      ({ video_id := "w", content_coverage := some ⟨40⟩ } : Video) "5" 99999 :=
  scoring_clock_free_without_pubdate _ _ _ _ _ (Or.inl rfl)

end EdCube
